import Mathlib

/-!
Verification of the EDIFACT INVOIC generator/parser core of the
technical-services repository
(src/library_acquisitions/invoice_processing/amazon_csv_to_edi.py,
workday_excel_to_edi.py, edi_parser.py) against its natural-language
specification.

Embedding conventions:
* Python strings are Lean `String`s; the Python string operations the code
  uses (`split`, slicing, `strip`, `upper`, `join`) are modelled character
  by character on `String.data`, which agrees with Python for the ASCII
  data these scripts handle.
* Monetary values are modelled as exact integer counts of cents (`Int`);
  the scripts' `f"{x:.2f}"` formatting of a 2-decimal amount is
  `formatMoney`.  Python's binary floats themselves are outside the
  embedding (see the discussion of claim C3).
* Fallible code paths (Python `int(...)` raising `ValueError`, dictionary
  and list indexing raising `KeyError`/`IndexError`) are modelled with
  `Except String`.
-/

/-- Split a list of characters on a separator predicate, keeping empty
pieces, as Python's `re.split` / `str.split(sep)` do. -/
def splitChars (p : Char → Bool) : List Char → List (List Char)
  | [] => [[]]
  | c :: cs =>
    match splitChars p cs with
    | [] => if p c then [[], []] else [[c]]
    | piece :: rest => if p c then [] :: piece :: rest else (c :: piece) :: rest

/-- Python `s.split(sep)` for a one-character separator (keeps empty pieces). -/
def pySplitOnChar (sep : Char) (s : String) : List String :=
  (splitChars (fun c => c == sep) s.data).map String.mk

/-- Python `str.split()` with no argument: split on whitespace runs,
dropping empty pieces. -/
def pyWords (s : String) : List String :=
  ((splitChars Char.isWhitespace s.data).map String.mk).filter (fun w => !w.isEmpty)

/-- Python `str.strip()`: remove leading and trailing whitespace. -/
def pyStrip (s : String) : String :=
  String.mk (((s.data.dropWhile Char.isWhitespace).reverse.dropWhile
    Char.isWhitespace).reverse)

/-- Python `str.upper()` (ASCII data). -/
def pyUpper (s : String) : String :=
  String.mk (s.data.map Char.toUpper)

/-- Python `s[:n]` on a string. -/
def pyTake (s : String) (n : Nat) : String := String.mk (s.data.take n)

/-- Python `s[n:]` on a string. -/
def pyDrop (s : String) (n : Nat) : String := String.mk (s.data.drop n)

/-- Python `sep.join(pieces)`. -/
def pyJoin (sep : String) : List String → String
  | [] => ""
  | [x] => x
  | x :: xs => x ++ sep ++ pyJoin sep xs

/-- Whether `s` begins with the pattern `pat` (used only to count the
`IMD+L+050` segments of a generated stream). -/
def beginsWith (pat s : String) : Bool :=
  s.data.take pat.data.length == pat.data

/-- Value of a nonempty digit string. -/
def digitsVal (l : List Char) : Nat :=
  l.foldl (fun acc c => acc * 10 + (c.toNat - 48)) 0

/-- Python `int(s)` on a string: optional surrounding whitespace, an optional
sign, then one or more decimal digits; anything else raises `ValueError`. -/
def pyInt (s : String) : Except String Int :=
  let t := (pyStrip s).data
  let (neg, digits) :=
    match t with
    | '-' :: rest => (true, rest)
    | '+' :: rest => (false, rest)
    | _ => (false, t)
  if digits.isEmpty then Except.error "ValueError: invalid literal for int()"
  else if digits.all Char.isDigit then
    Except.ok (if neg then -(digitsVal digits : Int) else (digitsVal digits : Int))
  else Except.error "ValueError: invalid literal for int()"

instance {ε α : Type} [DecidableEq ε] [DecidableEq α] : DecidableEq (Except ε α)
  | .error e, .error f =>
    if h : e = f then isTrue (by rw [h]) else isFalse (by intro hh; cases hh; exact h rfl)
  | .error _, .ok _ => isFalse (by intro h; cases h)
  | .ok _, .error _ => isFalse (by intro h; cases h)
  | .ok a, .ok b =>
    if h : a = b then isTrue (by rw [h]) else isFalse (by intro hh; cases hh; exact h rfl)

/-- Monetary amounts: exact integer numbers of cents. -/
abbrev Money := Int

/-- Two-digit rendering of a value below 100. -/
def twoDigits (n : Nat) : String :=
  if n < 10 then "0" ++ toString n else toString n

/-- The scripts' `f"{x:.2f}"` rendering of a 2-decimal amount held as cents. -/
def formatMoney (c : Money) : String :=
  let n := c.natAbs
  (if c < 0 then "-" else "") ++ toString (n / 100) ++ "." ++ twoDigits (n % 100)

/-- `EDIFACTInvoiceGenerator.split_title_for_imd`'s word loop (identical in
amazon_csv_to_edi.py lines 179-199 and workday_excel_to_edi.py lines 183-203):
greedy packing of words into `current_segment`, flushing to `segments` when the
next word does not fit, with a `word[:max_length]` / `word[max_length:]` forced
split only when the current segment is empty, and a final flush of the
remaining `current_segment`. -/
def splitLoop (maxLength : Nat) : List String → String → List String → List String
  | [], cur, segs => if cur.isEmpty then segs else segs ++ [cur]
  | w :: ws, cur, segs =>
    if (cur ++ " " ++ w).length ≤ maxLength then
      if cur.isEmpty then splitLoop maxLength ws w segs
      else splitLoop maxLength ws (cur ++ " " ++ w) segs
    else
      if cur.isEmpty then
        splitLoop maxLength ws (pyDrop w maxLength) (segs ++ [pyTake w maxLength])
      else splitLoop maxLength ws w (segs ++ [cur])

/-- `EDIFACTInvoiceGenerator.split_title_for_imd(title, max_length=35)`
(amazon_csv_to_edi.py lines 173-201, textually identical in
workday_excel_to_edi.py lines 177-205). -/
def split_title_for_imd (title : String) (maxLength : Nat := 35) : List String :=
  if title.length ≤ maxLength then [title]
  else splitLoop maxLength (pyWords title) "" []

/-- `EDIFACTConfig` (amazon_csv_to_edi.py lines 14-23, identical in
workday_excel_to_edi.py lines 15-24).  `interchange_ref` is the effective
reference: the constructor fills it from the clock when the caller leaves it
unset, so determinism claims quantify over it explicitly. -/
structure EDIFACTConfig where
  sender_id : String := "1694510101"
  sender_qualifier : String := "31B"
  receiver_id : String := "3333159"
  receiver_qualifier : String := "31B"
  interchange_ref : String
  currency : String := "USD"
  vendor_account : String := "amazon"
deriving DecidableEq

/-- A line-item dictionary as both generators consume it.  `none` models a
missing key.  Monetary fields are cents; `quantity` is the string form the
CSV pipeline passes around (amazon_csv_to_edi.py line 245 stores the raw
`Shipment Quantity` cell). `item_id` is the `asin` key of the amazon variant
and the `supplier_item_id` key of the workday variant; `sli_ref` likewise
covers the workday variant's `po_line_ref`. -/
structure LineItem where
  item_id : Option String := none
  title : Option String := none
  author : Option String := none
  quantity : Option String := none
  unit_price : Option Money := none
  list_price : Option Money := none
  shipping : Option Money := none
  discounts : Option Money := none
  tax_rate : Option String := none
  tax_amount : Option Money := none
  pol : Option String := none
  sli_ref : Option String := none
deriving DecidableEq

/-- An invoice dictionary as both `generate_invoice_segments` variants consume
it; `total_amount` and `total_tax` are the invoice-level fields the workday
variant reads. -/
structure Invoice where
  invoice_number : Option String := none
  invoice_date : Option String := none
  due_date : Option String := none
  api_ref : Option String := none
  total_amount : Option Money := none
  total_tax : Option Money := none
  line_items : List LineItem := []
deriving DecidableEq

/-- `item.get('quantity', '1') or '1'` (amazon_csv_to_edi.py line 140,
workday_excel_to_edi.py line 146): a missing or empty quantity becomes the
string `"1"`. -/
def quantityStr (item : LineItem) : String :=
  let q := item.quantity.getD "1"
  if q = "" then "1" else q

/-- `int(item.get('quantity', 1) or 1)` as evaluated at the invoice level
(amazon_csv_to_edi.py line 96, workday_excel_to_edi.py line 103). -/
def invoiceQty (item : LineItem) : Except String Int :=
  match item.quantity with
  | none => pure 1
  | some q => if q = "" then pure 1 else pyInt q

/-- `sum(int(item.get('quantity', 1) or 1) for item in line_items)`. -/
def totalQty : List LineItem → Except String Int
  | [] => pure 0
  | item :: rest => do
    let q ← invoiceQty item
    let r ← totalQty rest
    pure (q + r)

/-- `sum(item.get('unit_price', 0) * int(item.get('quantity', 1) or 1) for
item in line_items)` (amazon_csv_to_edi.py lines 101-102,
workday_excel_to_edi.py lines 108-109). -/
def grossLines : List LineItem → Except String Money
  | [] => pure 0
  | item :: rest => do
    let q ← invoiceQty item
    let r ← grossLines rest
    pure (item.unit_price.getD 0 * q + r)

/-- `sum(item.get('shipping', 0) for item in line_items)`. -/
def shippingTotal (items : List LineItem) : Money :=
  items.foldl (fun acc item => acc + item.shipping.getD 0) 0

/-- `sum(item.get('discounts', 0) for item in line_items)`. -/
def discountsTotal (items : List LineItem) : Money :=
  items.foldl (fun acc item => acc + item.discounts.getD 0) 0

/-- `sum(item.get('tax_amount', 0) for item in line_items)`. -/
def taxAmountTotal (items : List LineItem) : Money :=
  items.foldl (fun acc item => acc + item.tax_amount.getD 0) 0

/-- `EDIFACTInvoiceGenerator.generate_line_item_segments`
(amazon_csv_to_edi.py lines 120-171; workday_excel_to_edi.py lines 126-175 is
textually identical up to the dictionary key names `asin`/`supplier_item_id`
and `sli_ref`/`po_line_ref`, both covered by `item_id`/`sli_ref` here).
The `Except` error models the `ValueError` that `int(quantity)` raises on a
quantity string that is not an integer literal. -/
def generate_line_item_segments (item : LineItem) (line_num : Nat) :
    Except String (List String) := do
  let asin := item.item_id.getD ""
  let author := pyUpper (item.author.getD "")
  let authorSegs := if author = "" then [] else ["IMD+L+010+:::" ++ author ++ "'"]
  let title := pyUpper (item.title.getD "")
  let titleSegs := (split_title_for_imd title).map (fun t => "IMD+L+050+:::" ++ t ++ "'")
  let quantity := quantityStr item
  let q ← pyInt quantity
  let unit_price := item.unit_price.getD 0
  let line_total := unit_price * q
  let list_price := item.list_price.getD unit_price
  let tax_rate := item.tax_rate.getD ""
  let tax_amount := item.tax_amount.getD 0
  let taxSegs :=
    if tax_rate = "" ∨ tax_rate = "0" then []
    else ["TAX+7+VAT+++:::" ++ tax_rate ++ "'"] ++
      (if tax_amount > 0 then ["MOA+124:" ++ formatMoney tax_amount ++ "'"] else [])
  let pol := item.pol.getD ""
  let polSegs := if pol = "" then [] else ["RFF+LI:" ++ pol ++ "'"]
  let sli_ref := item.sli_ref.getD "0"
  pure (["LIN+" ++ toString line_num ++ "++" ++ asin ++ ":EN'"] ++
    authorSegs ++ titleSegs ++
    ["QTY+47:" ++ quantity ++ "'",
     "MOA+203:" ++ formatMoney line_total ++ "'",
     "PRI+AAB:" ++ formatMoney list_price ++ "'",
     "PRI+AAA:" ++ formatMoney unit_price ++ "'"] ++
    taxSegs ++ polSegs ++
    ["RFF+SLI:" ++ sli_ref ++ "'"])

/-- The `for i, item in enumerate(line_items, 1)` loop of both
`generate_invoice_segments` variants. -/
def generateLines : Nat → List LineItem → Except String (List String)
  | _, [] => pure []
  | i, item :: rest => do
    let segs ← generate_line_item_segments item i
    let restSegs ← generateLines (i + 1) rest
    pure (segs ++ restSegs)

/-- Lines 114-117 / 120-123 of the generators: compute
`segment_count = len(segments) + 1` and append the UNT trailer. -/
def withUNT (body : List String) (msg_ref : String) : List String :=
  body ++ ["UNT+" ++ toString (body.length + 1) ++ "+" ++ msg_ref ++ "'"]

namespace Amazon

/-- `EDIFACTInvoiceGenerator.generate_invoice_segments` of
amazon_csv_to_edi.py (lines 47-118).  `today` is the
`datetime.now().strftime("%Y%m%d")` string the code substitutes for a missing
`invoice_date`. -/
def generate_invoice_segments (config : EDIFACTConfig) (today : String)
    (invoice_data : Invoice) : Except String (List String) := do
  let msg_ref := invoice_data.invoice_number.getD "1"
  let invoice_num := invoice_data.invoice_number.getD "491150"
  let invoice_date := invoice_data.invoice_date.getD today
  let due_date := invoice_data.due_date.getD ""
  let dueSegs :=
    if due_date ≠ "" ∧ due_date ≠ invoice_date then
      ["DTM+13:" ++ due_date ++ ":102'"]
    else []
  let api_ref := invoice_data.api_ref.getD "7015-10"
  let shipping_total := shippingTotal invoice_data.line_items
  let alcSegs :=
    if shipping_total > 0 then
      ["ALC+C++++DL::28:Freight Charges'", "MOA+8:" ++ formatMoney shipping_total ++ "'"]
    else []
  let lineSegs ← generateLines 1 invoice_data.line_items
  let total_qty ← totalQty invoice_data.line_items
  let lineGross ← grossLines invoice_data.line_items
  let gross_total := lineGross + shipping_total
  let discounts_total := discountsTotal invoice_data.line_items
  let total_tax := taxAmountTotal invoice_data.line_items
  let net_total := gross_total + discounts_total + total_tax
  let taxSegs :=
    if total_tax > 0 then ["MOA+176:" ++ formatMoney total_tax ++ "'"] else []
  let body :=
    ["UNH+" ++ msg_ref ++ "+INVOIC:D:96A:UN:EAN008'",
     "BGM+380+" ++ invoice_num ++ "'",
     "DTM+137:" ++ invoice_date ++ ":102'"] ++ dueSegs ++
    ["RFF+API:" ++ api_ref ++ "'",
     "RFF+VA:" ++ config.vendor_account ++ "'",
     "CUX+2:" ++ config.currency ++ ":4'"] ++ alcSegs ++ lineSegs ++
    ["UNS+S'",
     "CNT+1:" ++ toString total_qty ++ "'",
     "CNT+2:" ++ toString invoice_data.line_items.length ++ "'"] ++
    ["MOA+9:" ++ formatMoney gross_total ++ "'",
     "MOA+79:" ++ formatMoney net_total ++ "'"] ++ taxSegs
  pure (withUNT body msg_ref)

end Amazon

namespace Workday

/-- `EDIFACTInvoiceGenerator.generate_invoice_segments` of
workday_excel_to_edi.py (lines 48-124): sales tax is emitted as an ALC/MOA+8
charge pair, and the net total prefers the invoice-level `total_amount`. -/
def generate_invoice_segments (config : EDIFACTConfig) (today : String)
    (invoice_data : Invoice) : Except String (List String) := do
  let msg_ref := invoice_data.invoice_number.getD "1"
  let invoice_num := invoice_data.invoice_number.getD "491150"
  let invoice_date := invoice_data.invoice_date.getD today
  let due_date := invoice_data.due_date.getD ""
  let dueSegs :=
    if due_date ≠ "" ∧ due_date ≠ invoice_date then
      ["DTM+13:" ++ due_date ++ ":102'"]
    else []
  let api_ref := invoice_data.api_ref.getD "7015-10"
  let shipping_total := shippingTotal invoice_data.line_items
  let total_tax := invoice_data.total_tax.getD 0
  let alcSegs :=
    if shipping_total > 0 then
      ["ALC+C++++DL::28:Freight Charges'", "MOA+8:" ++ formatMoney shipping_total ++ "'"]
    else []
  let alcTaxSegs :=
    if total_tax > 0 then
      ["ALC+C++++TX::28:Sales Tax'", "MOA+8:" ++ formatMoney total_tax ++ "'"]
    else []
  let lineSegs ← generateLines 1 invoice_data.line_items
  let total_qty ← totalQty invoice_data.line_items
  let lineGross ← grossLines invoice_data.line_items
  let gross_total := lineGross + shipping_total
  let net_total := invoice_data.total_amount.getD (gross_total + total_tax)
  let body :=
    ["UNH+" ++ msg_ref ++ "+INVOIC:D:96A:UN:EAN008'",
     "BGM+380+" ++ invoice_num ++ "'",
     "DTM+137:" ++ invoice_date ++ ":102'"] ++ dueSegs ++
    ["RFF+API:" ++ api_ref ++ "'",
     "RFF+VA:" ++ config.vendor_account ++ "'",
     "CUX+2:" ++ config.currency ++ ":4'"] ++ alcSegs ++ alcTaxSegs ++ lineSegs ++
    ["UNS+S'",
     "CNT+1:" ++ toString total_qty ++ "'",
     "CNT+2:" ++ toString invoice_data.line_items.length ++ "'"] ++
    ["MOA+9:" ++ formatMoney gross_total ++ "'",
     "MOA+79:" ++ formatMoney net_total ++ "'"]
  pure (withUNT body msg_ref)

end Workday

/-- `EDIFACTInvoiceGenerator.generate_una_unb_headers` (amazon_csv_to_edi.py
lines 34-45, identical in workday_excel_to_edi.py lines 35-46).  `date_str`
and `time_str` are the `%y%m%d` / `%H%M` renderings of `datetime.now()` the
method computes itself. -/
def generate_una_unb_headers (config : EDIFACTConfig)
    (date_str time_str : String) : String :=
  "UNA:+.? '" ++
    "UNB+UNOC:2+" ++ config.sender_id ++ ":" ++ config.sender_qualifier ++ "+" ++
    config.receiver_id ++ ":" ++ config.receiver_qualifier ++ "+" ++
    date_str ++ ":" ++ time_str ++ "+" ++ config.interchange_ref ++ "'"

/-- `EDIFACTInvoiceGenerator.generate_unz_trailer` (amazon_csv_to_edi.py
lines 203-205). -/
def generate_unz_trailer (config : EDIFACTConfig) (message_count : Nat) : String :=
  "UNZ+" ++ toString message_count ++ "+" ++ config.interchange_ref ++ "'"

/-- The per-invoice segment loop of `convert_amazon_csv_to_edifact`
(amazon_csv_to_edi.py lines 339-342). -/
def convertLoop (config : EDIFACTConfig) (today : String) :
    List Invoice → Except String (List String)
  | [] => pure []
  | inv :: rest => do
    let segs ← Amazon.generate_invoice_segments config today inv
    let r ← convertLoop config today rest
    pure (segs ++ r)

/-- The writing phase of `convert_amazon_csv_to_edifact` (amazon_csv_to_edi.py
lines 306-345) applied to an already-parsed invoice list: UNA/UNB headers,
every invoice's segments in order, then the UNZ trailer, concatenated with no
separators.  `today`, `date_str` and `time_str` are the clock readings the
run takes. -/
def convert_amazon_csv_to_edifact (config : EDIFACTConfig)
    (today date_str time_str : String) (invoices : List Invoice) :
    Except String String :=
  if invoices = [] then Except.error "No invoice data found in CSV file"
  else do
    let segs ← convertLoop config today invoices
    pure (generate_una_unb_headers config date_str time_str ++
      pyJoin "" segs ++ generate_unz_trailer config invoices.length)

/-- A line-item record while `parse_edi` accumulates description fragments. -/
structure PLine where
  item_number : Option String := none
  description : List String := []
  quantity : Option String := none
  amount : Option String := none
deriving DecidableEq

/-- A message record while `parse_edi` runs: `invoice_date` is `none` until a
DTM sets it (the `UNH` branch creates the entry without that key), and
`invoice_total` models `totals['invoice_total']`. -/
structure PMsg where
  invoice_number : Option String := none
  invoice_date : Option String := none
  lines : List (String × PLine) := []
  invoice_total : Option String := none
deriving DecidableEq

/-- A parsed line after the final pass joins the description list. -/
structure PLineOut where
  item_number : Option String := none
  description : String := ""
  quantity : Option String := none
  amount : Option String := none
deriving DecidableEq

/-- A parsed message as `parse_edi` returns it. -/
structure PMsgOut where
  invoice_number : Option String := none
  invoice_date : Option String := none
  lines : List (String × PLineOut) := []
  invoice_total : Option String := none
deriving DecidableEq

/-- First-match lookup in an association list (a Python dict read). -/
def lookupA {α : Type} : List (String × α) → String → Option α
  | [], _ => none
  | (k, v) :: rest, key => if k = key then some v else lookupA rest key

/-- Python dict assignment `d[key] = v` on an ordered association list:
replace in place if the key exists, otherwise append at the end. -/
def updateA {α : Type} : List (String × α) → String → α → List (String × α)
  | [], key, v => [(key, v)]
  | (k, w) :: rest, key, v =>
    if k = key then (key, v) :: rest else (k, w) :: updateA rest key v

/-- The parse state threaded through `parse_edi`'s loop: the ordered result
dict plus `current_message_ref` and `current_line_number`. -/
structure PState where
  data : List (String × PMsg) := []
  msgRef : Option String := none
  lineNum : Option String := none
deriving DecidableEq

/-- The element split of edi_parser.py line 23: split each segment on every
plus sign or colon, keeping empty pieces. -/
def splitElems (segment : String) : List String :=
  (splitChars (fun c => c == '+' || c == ':') segment.data).map String.mk

/-- One iteration of `parse_edi`'s segment loop (edi_parser.py lines 21-78).
`Except.error "IndexError"` marks `elements[1]` on a `UNH` or `LIN` segment
with too few elements; `Except.error "KeyError"` marks
`parsed_data[current_message_ref]` (or the nested `lines` access) when the
referenced key does not exist. -/
def stepSeg (st : PState) (elements : List String) : Except String PState :=
  let segment_name := elements.headD ""
  if segment_name = "UNH" then
    match elements[1]? with
    | none => Except.error "IndexError"
    | some ref =>
      let fresh : PMsg := {}
      Except.ok { st with data := updateA st.data ref fresh, msgRef := some ref }
  else if segment_name = "DTM" then
    match st.msgRef, elements[2]? with
    | some r, some d =>
      match lookupA st.data r with
      | none => Except.error "KeyError"
      | some m =>
        let m2 := { m with invoice_date := some d }
        Except.ok { st with data := updateA st.data r m2 }
    | _, _ => Except.ok st
  else if segment_name = "BGM" then
    match st.msgRef, elements[2]? with
    | some r, some num =>
      match lookupA st.data r with
      | none => Except.error "KeyError"
      | some m =>
        let m2 := { m with invoice_number := some num }
        Except.ok { st with data := updateA st.data r m2 }
    | _, _ => Except.ok st
  else if segment_name = "LIN" then
    match elements[1]? with
    | none => Except.error "IndexError"
    | some n =>
      let item_number := elements[3]?
      match st.msgRef with
      | none => Except.error "KeyError"
      | some r =>
        match lookupA st.data r with
        | none => Except.error "KeyError"
        | some m =>
          let freshLine : PLine := { item_number := item_number }
          let m2 := { m with lines := updateA m.lines ("line_" ++ n) freshLine }
          Except.ok { st with data := updateA st.data r m2, lineNum := some n }
  else if segment_name = "IMD" then
    match st.lineNum with
    | none => Except.ok st
    | some n =>
      let description :=
        pyStrip (if 4 < elements.length then pyJoin " " (elements.drop 4) else "")
      match st.msgRef with
      | none => Except.error "KeyError"
      | some r =>
        match lookupA st.data r with
        | none => Except.error "KeyError"
        | some m =>
          match lookupA m.lines ("line_" ++ n) with
          | none => Except.error "KeyError"
          | some l =>
            let l2 := { l with description := l.description ++ [description] }
            let m2 := { m with lines := updateA m.lines ("line_" ++ n) l2 }
            Except.ok { st with data := updateA st.data r m2 }
  else if segment_name = "QTY" then
    match st.lineNum with
    | none => Except.ok st
    | some n =>
      let quantity := elements[2]?
      match st.msgRef with
      | none => Except.error "KeyError"
      | some r =>
        match lookupA st.data r with
        | none => Except.error "KeyError"
        | some m =>
          match lookupA m.lines ("line_" ++ n) with
          | none => Except.error "KeyError"
          | some l =>
            let l2 := { l with quantity := quantity }
            let m2 := { m with lines := updateA m.lines ("line_" ++ n) l2 }
            Except.ok { st with data := updateA st.data r m2 }
  else if segment_name = "MOA" then
    match elements[1]?, elements[2]? with
    | some qual, some amt =>
      if qual = "203" then
        match st.lineNum with
        | none => Except.ok st
        | some n =>
          match st.msgRef with
          | none => Except.error "KeyError"
          | some r =>
            match lookupA st.data r with
            | none => Except.error "KeyError"
            | some m =>
              match lookupA m.lines ("line_" ++ n) with
              | none => Except.error "KeyError"
              | some l =>
                let l2 := { l with amount := some amt }
                let m2 := { m with lines := updateA m.lines ("line_" ++ n) l2 }
                Except.ok { st with data := updateA st.data r m2 }
      else if qual = "9" then
        match st.msgRef with
        | none => Except.error "KeyError"
        | some r =>
          match lookupA st.data r with
          | none => Except.error "KeyError"
          | some m =>
            let m2 := { m with invoice_total := some amt }
            Except.ok { st with data := updateA st.data r m2 }
      else Except.ok st
    | _, _ => Except.ok st
  else Except.ok st

/-- The segment loop of `parse_edi`, folded left to right over the element
lists of the split segments. -/
def foldElems : PState → List (List String) → Except String PState
  | st, [] => Except.ok st
  | st, e :: es => do
    let st' ← stepSeg st e
    foldElems st' es

/-- The final pass of `parse_edi` (edi_parser.py lines 80-83): join each
line's description fragments with single spaces. -/
def finalizeLine (l : PLine) : PLineOut :=
  { item_number := l.item_number, description := pyJoin " " l.description,
    quantity := l.quantity, amount := l.amount }

/-- `finalizeLine` applied across the whole result dict. -/
def finalize (st : PState) : List (String × PMsgOut) :=
  st.data.map (fun p => (p.1,
    { invoice_number := p.2.invoice_number, invoice_date := p.2.invoice_date,
      lines := p.2.lines.map (fun q => (q.1, finalizeLine q.2)),
      invoice_total := p.2.invoice_total }))

/-- `parse_edi` (edi_parser.py lines 13-85): split the stream on the segment
terminator, split each segment on plus signs and colons, fold the dispatch
loop, then join descriptions. -/
def parse_edi (edi_content : String) : Except String (List (String × PMsgOut)) :=
  (foldElems {} ((pySplitOnChar '\'' edi_content).map splitElems)).map finalize


/-! ## Claim C1: the end-to-end scenario of spec section 8 -/

/-- The configuration of the C1 scenario, with a fixed interchange
reference. -/
def c1config : EDIFACTConfig := { interchange_ref := "0115120000000" }

/-- The single line item of the C1 scenario (unit price 9.99, quantity 2). -/
def c1item : LineItem :=
  { item_id := some "ASIN1",
    title := some "A VERY LONG TITLE THAT EXCEEDS THIRTY FIVE CHARACTERS EASILY",
    author := some "SMITH",
    quantity := some "2",
    unit_price := some 999 }

/-- The single invoice of the C1 scenario. -/
def c1invoice : Invoice :=
  { invoice_number := some "491150",
    invoice_date := some "20250115",
    line_items := [c1item] }

/-- The segment list the amazon generator emits for the C1 invoice. -/
def c1segs : List String :=
  (Amazon.generate_invoice_segments c1config "20250110" c1invoice).toOption.getD []

/-- The full C1 output stream (headers, message, trailer). -/
def c1stream : String :=
  (convert_amazon_csv_to_edifact c1config "20250110" "250110" "0900"
    [c1invoice]).toOption.getD ""

/-- The result of re-parsing the C1 stream. -/
def c1parsed : List (String × PMsgOut) := (parse_edi c1stream).toOption.getD []

set_option maxRecDepth 100000 in
/-- C1: for the single invoice 491150 with one line (quantity 2, unit price
9.99, a 60-character title), the generated stream contains `QTY+47:2`,
`MOA+203:19.98`, at least two `IMD+L+050` segments, `CNT+1:2` and `CNT+2:1`,
and re-parsing the emitted stream yields exactly one message keyed
`"491150"` whose single line has quantity `"2"` and amount `"19.98"`. -/
theorem c1_end_to_end_scenario :
    Amazon.generate_invoice_segments c1config "20250110" c1invoice =
      Except.ok c1segs ∧
    "QTY+47:2'" ∈ c1segs ∧
    "MOA+203:19.98'" ∈ c1segs ∧
    2 ≤ c1segs.countP (fun s => beginsWith "IMD+L+050" s) ∧
    "CNT+1:2'" ∈ c1segs ∧
    "CNT+2:1'" ∈ c1segs ∧
    convert_amazon_csv_to_edifact c1config "20250110" "250110" "0900" [c1invoice] =
      Except.ok c1stream ∧
    parse_edi c1stream = Except.ok c1parsed ∧
    c1parsed.length = 1 ∧
    (lookupA c1parsed "491150").map (fun m => m.lines.length) = some 1 ∧
    (lookupA c1parsed "491150").map
        (fun m => (lookupA m.lines "line_1").map (fun l => (l.quantity, l.amount))) =
      some (some (some "2", some "19.98")) := by
  decide

/-! ## Claim C2: title-splitting chunk lengths -/

/-- A single 40-character word. -/
def c2longWord : String := "XXXXXXXXXXXXXXXXXXXXXXXXXXXXXXXXXXXXXXXX"

/-- C2 (counterexample): on the title `"AB "` followed by a single
40-character word, the splitter emits the 40-character word as one whole
chunk — it is neither at most 35 characters long nor hard-split at the 35th
character, because the forced split only happens when the current chunk is
empty. -/
theorem c2_counterexample_long_chunk :
    split_title_for_imd ("AB " ++ c2longWord) = ["AB", c2longWord] ∧
    35 < c2longWord.length := by
  decide

theorem length_append_str (a b : String) : (a ++ b).length = a.length + b.length := by
  cases a; cases b; simp [String.length, String.append]

theorem length_mk (l : List Char) : (String.mk l).length = l.length := rfl

/-- Every chunk `splitLoop` returns is at most `m` characters long, provided
every remaining word, the current chunk and every already-emitted chunk are. -/
theorem splitLoop_length_le (m : Nat) (ws : List String) (cur : String)
    (segs : List String) (hws : ∀ w ∈ ws, w.length ≤ m) (hcur : cur.length ≤ m)
    (hsegs : ∀ s ∈ segs, s.length ≤ m) :
    ∀ s ∈ splitLoop m ws cur segs, s.length ≤ m := by
  induction ws generalizing cur segs with
  | nil =>
    intro s hs
    unfold splitLoop at hs
    split at hs
    · exact hsegs s hs
    · rcases List.mem_append.mp hs with h | h
      · exact hsegs s h
      · simp at h; subst h; exact hcur
  | cons w ws ih =>
    have hw : w.length ≤ m := hws w (List.mem_cons_self w ws)
    have hws2 : ∀ x ∈ ws, x.length ≤ m := fun x hx => hws x (List.mem_cons_of_mem w hx)
    intro s hs
    unfold splitLoop at hs
    split at hs
    · split at hs
      · exact ih w segs hws2 hw hsegs s hs
      · next hfit _ =>
          exact ih (cur ++ " " ++ w) segs hws2 hfit hsegs s hs
    · split at hs
      · have hwd : w.data.length = w.length := rfl
        refine ih (pyDrop w m) (segs ++ [pyTake w m]) hws2 ?_ ?_ s hs
        · have hdrop : (pyDrop w m).length = w.data.length - m := by
            simp [pyDrop, length_mk]
          omega
        · intro x hx
          rcases List.mem_append.mp hx with h | h
          · exact hsegs x h
          · simp at h; subst h
            have htake : (pyTake w m).length = min m w.data.length := by
              simp [pyTake, length_mk]
            omega
      · refine ih w (segs ++ [cur]) hws2 hw ?_ s hs
        intro x hx
        rcases List.mem_append.mp hx with h | h
        · exact hsegs x h
        · simp at h; subst h; exact hcur

/-- C2 (amended): each chunk the title splitter returns (each becoming one
`IMD+L+050` segment, in order) has length at most 35 provided every
whitespace-separated word of the title is at most 35 characters long.  (A
word longer than 35 characters is hard-split at the 35th character only when
it starts a fresh chunk; otherwise, and for the carried remainder, it is
emitted whole, so such titles can produce chunks longer than 35 — see the
counterexample.) -/
theorem c2_amended_chunks_bounded (title : String)
    (hw : ∀ w ∈ pyWords title, w.length ≤ 35) :
    ∀ chunk ∈ split_title_for_imd title, chunk.length ≤ 35 := by
  intro chunk hc
  unfold split_title_for_imd at hc
  split at hc
  · next hle => simp at hc; subst hc; exact hle
  · exact splitLoop_length_le 35 (pyWords title) "" [] hw (by decide) (by simp) chunk hc

/-- Witness for `c2_amended_chunks_bounded` at the C1 scenario's title. -/
theorem c2_amended_chunks_bounded_witness :
    (∀ w ∈ pyWords "A VERY LONG TITLE THAT EXCEEDS THIRTY FIVE CHARACTERS EASILY",
        w.length ≤ 35) ∧
    ∀ chunk ∈ split_title_for_imd
        "A VERY LONG TITLE THAT EXCEEDS THIRTY FIVE CHARACTERS EASILY",
      chunk.length ≤ 35 :=
  ⟨by decide, c2_amended_chunks_bounded _ (by decide)⟩

/-! ## Claim C4: unparseable quantity fields abort generation -/

/-- A line item whose quantity string is not an integer literal. -/
def c4item : LineItem := { quantity := some "N/A", unit_price := some 999 }

/-- An invoice carrying `c4item`. -/
def c4invoice : Invoice :=
  { invoice_number := some "12345", invoice_date := some "20250101",
    line_items := [c4item] }

/-- The configuration used for the C4 run. -/
def c4config : EDIFACTConfig := { interchange_ref := "0101000000000" }

/-- C4 (failing input): a line item whose quantity is present but not
parseable as an integer makes `int(quantity)` raise `ValueError` inside
`generate_line_item_segments`, which propagates through
`generate_invoice_segments` and `convert_amazon_csv_to_edifact` and aborts
the whole batch — generation does not substitute quantity 1 there.  (A
quantity that is absent or empty is indeed replaced by 1, and an absent
price by 0, but no safe default exists for the non-numeric string case.) -/
theorem c4_unparseable_quantity_raises :
    generate_line_item_segments c4item 1 =
      Except.error "ValueError: invalid literal for int()" ∧
    Amazon.generate_invoice_segments c4config "20250101" c4invoice =
      Except.error "ValueError: invalid literal for int()" ∧
    convert_amazon_csv_to_edifact c4config "20250101" "250101" "0900" [c4invoice] =
      Except.error "ValueError: invalid literal for int()" := by
  decide

/-! ## Claim C8: PRI+AAB when list_price is absent -/

/-- A line item with a 9.99 unit price and no list_price key. -/
def c8item : LineItem := { quantity := some "1", unit_price := some 999 }

/-- The segments emitted for `c8item`. -/
def c8segs : List String := (generate_line_item_segments c8item 1).toOption.getD []

/-- C8 (counterexample): for a line item with unit price 9.99 and no
list_price field, the emitted segments contain `PRI+AAB:9.99` and no
`PRI+AAB:0.00`: `list_price` defaults to the unit price
(`item.get('list_price', unit_price)`), not to 0. -/
theorem c8_counterexample_aab_not_zero :
    c8item.list_price = none ∧
    generate_line_item_segments c8item 1 = Except.ok c8segs ∧
    "PRI+AAB:9.99'" ∈ c8segs ∧ "PRI+AAB:0.00'" ∉ c8segs := by
  decide

/-- C8 (amended): for every line item whose list_price field is absent, the
emitted PRI+AAB segment renders the item's unit price (which itself defaults
to 0 when absent), since `list_price = item.get('list_price', unit_price)` in
both generator variants. -/
theorem c8_amended_aab_defaults_to_unit_price (item : LineItem) (line_num : Nat)
    (segs : List String) (hlp : item.list_price = none)
    (h : generate_line_item_segments item line_num = Except.ok segs) :
    "PRI+AAB:" ++ formatMoney (item.unit_price.getD 0) ++ "'" ∈ segs := by
  simp only [generate_line_item_segments, bind, Except.bind] at h
  cases hq : pyInt (quantityStr item) with
  | error e => rw [hq] at h; cases h
  | ok q =>
    rw [hq] at h
    simp only [pure, Except.pure, Except.ok.injEq] at h
    subst h
    simp [hlp, List.mem_append]

/-- Witness for `c8_amended_aab_defaults_to_unit_price` at `c8item`. -/
theorem c8_amended_aab_defaults_witness :
    c8item.list_price = none ∧
    "PRI+AAB:" ++ formatMoney (c8item.unit_price.getD 0) ++ "'" ∈ c8segs :=
  ⟨rfl, c8_amended_aab_defaults_to_unit_price c8item 1 c8segs rfl (by decide)⟩

/-! ## Claim C7: the UNT trailer counts every segment including itself -/

/-- The UNT trailer appended by `withUNT` renders exactly the length of the
full segment list it ends. -/
theorem withUNT_getLast (body : List String) (msgref : String) :
    (withUNT body msgref).getLast? =
      some ("UNT+" ++ toString (withUNT body msgref).length ++ "+" ++ msgref ++ "'") := by
  unfold withUNT
  rw [List.getLast?_concat]
  simp [List.length_append]

/-- C7: in both generator variants, whenever `generate_invoice_segments`
succeeds, its last segment is the UNT trailer and the count it renders equals
the total number of segments of the message, the UNT segment included. -/
theorem c7_unt_counts_all_segments (config : EDIFACTConfig) (today : String)
    (inv : Invoice) :
    (∀ segs, Amazon.generate_invoice_segments config today inv = Except.ok segs →
      segs.getLast? = some ("UNT+" ++ toString segs.length ++ "+" ++
        inv.invoice_number.getD "1" ++ "'")) ∧
    (∀ segs, Workday.generate_invoice_segments config today inv = Except.ok segs →
      segs.getLast? = some ("UNT+" ++ toString segs.length ++ "+" ++
        inv.invoice_number.getD "1" ++ "'")) := by
  constructor <;>
  · intro segs h
    first
      | simp only [Amazon.generate_invoice_segments, bind, Except.bind] at h
      | simp only [Workday.generate_invoice_segments, bind, Except.bind] at h
    cases h1 : generateLines 1 inv.line_items with
    | error e => rw [h1] at h; cases h
    | ok lineSegs =>
      rw [h1] at h
      cases h2 : totalQty inv.line_items with
      | error e => rw [h2] at h; cases h
      | ok tq =>
        rw [h2] at h
        cases h3 : grossLines inv.line_items with
        | error e => rw [h3] at h; cases h
        | ok g =>
          rw [h3] at h
          simp only [pure, Except.pure, Except.ok.injEq] at h
          subst h
          exact withUNT_getLast _ _

/-- An invoice with no line items used to witness `c7_unt_counts_all_segments`
(a record with zero line items still emits a complete message shell). -/
def c7invoice : Invoice :=
  { invoice_number := some "77001", invoice_date := some "20250301" }

/-- The configuration of the C7 witness run. -/
def c7config : EDIFACTConfig := { interchange_ref := "0301000000000" }

/-- The segments the amazon variant emits for `c7invoice`. -/
def c7segsA : List String :=
  (Amazon.generate_invoice_segments c7config "20250301" c7invoice).toOption.getD []

/-- The segments the workday variant emits for `c7invoice`. -/
def c7segsW : List String :=
  (Workday.generate_invoice_segments c7config "20250301" c7invoice).toOption.getD []

/-- Witness for `c7_unt_counts_all_segments` at `c7invoice`. -/
theorem c7_unt_counts_witness :
    Amazon.generate_invoice_segments c7config "20250301" c7invoice = Except.ok c7segsA ∧
    c7segsA.getLast? = some ("UNT+" ++ toString c7segsA.length ++ "+" ++
      c7invoice.invoice_number.getD "1" ++ "'") ∧
    Workday.generate_invoice_segments c7config "20250301" c7invoice = Except.ok c7segsW ∧
    c7segsW.getLast? = some ("UNT+" ++ toString c7segsW.length ++ "+" ++
      c7invoice.invoice_number.getD "1" ++ "'") :=
  ⟨by decide,
   (c7_unt_counts_all_segments c7config "20250301" c7invoice).1 c7segsA (by decide),
   by decide,
   (c7_unt_counts_all_segments c7config "20250301" c7invoice).2 c7segsW (by decide)⟩

/-! ## Claim C10: the workday net total -/

/-- C10: in the workday variant, whenever generation succeeds the MOA+9/MOA+79
pair renders `gross_total = Σ unit_price·quantity + shipping_total` and a net
total that is the invoice-level `total_amount` verbatim when that field is
present and `gross_total + total_tax` otherwise; line-level discounts never
enter the formula. -/
theorem c10_workday_net_total (config : EDIFACTConfig) (today : String)
    (inv : Invoice) (segs : List String)
    (h : Workday.generate_invoice_segments config today inv = Except.ok segs) :
    ∃ gross, grossLines inv.line_items = Except.ok gross ∧
      "MOA+9:" ++ formatMoney (gross + shippingTotal inv.line_items) ++ "'" ∈ segs ∧
      "MOA+79:" ++ formatMoney (inv.total_amount.getD
        (gross + shippingTotal inv.line_items + inv.total_tax.getD 0)) ++ "'" ∈ segs := by
  simp only [Workday.generate_invoice_segments, bind, Except.bind] at h
  cases h1 : generateLines 1 inv.line_items with
  | error e => rw [h1] at h; cases h
  | ok lineSegs =>
    rw [h1] at h
    cases h2 : totalQty inv.line_items with
    | error e => rw [h2] at h; cases h
    | ok tq =>
      rw [h2] at h
      cases h3 : grossLines inv.line_items with
      | error e => rw [h3] at h; cases h
      | ok g =>
        rw [h3] at h
        simp only [pure, Except.pure, Except.ok.injEq] at h
        subst h
        refine ⟨g, rfl, ?_, ?_⟩ <;>
          simp [withUNT, List.mem_append]

/-- The line item of a workday invoice whose invoice-level total (500.00)
deliberately differs from its line total (45.00), witnessing that MOA+79
takes `total_amount` verbatim. -/
def c10item : LineItem :=
  { item_id := some "ISBN1", title := some "BOOK", quantity := some "3",
    unit_price := some 1500 }

/-- The invoice of the C10 witness run (see `c10item`). -/
def c10invoice : Invoice :=
  { invoice_number := some "W-100", invoice_date := some "20250201",
    total_amount := some 50000, total_tax := some 400,
    line_items := [c10item] }

/-- The configuration of the C10 witness run. -/
def c10config : EDIFACTConfig := { interchange_ref := "0201000000000" }

/-- The segments the workday variant emits for `c10invoice`. -/
def c10segs : List String :=
  (Workday.generate_invoice_segments c10config "20250201" c10invoice).toOption.getD []

/-- Witness for `c10_workday_net_total` at `c10invoice`. -/
theorem c10_workday_net_total_witness :
    Workday.generate_invoice_segments c10config "20250201" c10invoice =
      Except.ok c10segs ∧
    ∃ gross, grossLines c10invoice.line_items = Except.ok gross ∧
      "MOA+9:" ++ formatMoney (gross + shippingTotal c10invoice.line_items) ++ "'" ∈
        c10segs ∧
      "MOA+79:" ++ formatMoney (c10invoice.total_amount.getD
        (gross + shippingTotal c10invoice.line_items +
          c10invoice.total_tax.getD 0)) ++ "'" ∈ c10segs :=
  ⟨by decide, c10_workday_net_total c10config "20250201" c10invoice c10segs (by decide)⟩

/-! ## Claim C6: which DTM sets the invoice date -/

/-- A message with two DTM segments: first the invoice date (qualifier 137,
20250115), then the due date (qualifier 13, 20250301). -/
def c6stream : String := "UNH+M1'DTM+137:20250115:102'DTM+13:20250301:102'"

/-- C6 (counterexample): on a message carrying `DTM+137:20250115:102`
followed by `DTM+13:20250301:102`, the parser ends with
`invoice_date = "20250301"` — the element[2] of the LAST DTM segment, not of
the first: each DTM assignment overwrites the previous one, refuting
"first DTM wins". -/
theorem c6_counterexample_last_dtm_wins :
    parse_edi c6stream =
      Except.ok [("M1", { invoice_date := some "20250301" })] := by
  decide

/-- Folding the parser loop over an appended segment list runs the first part
and, when it succeeds, continues with the second. -/
theorem foldElems_append (a b : List (List String)) (st : PState) :
    foldElems st (a ++ b) =
      match foldElems st a with
      | Except.ok st1 => foldElems st1 b
      | Except.error e => Except.error e := by
  induction a generalizing st with
  | nil => simp [foldElems]
  | cons e es ih =>
    simp only [List.cons_append, foldElems, bind, Except.bind]
    cases stepSeg st e with
    | error err => rfl
    | ok st1 => exact ih st1

/-- Looking a key up after a dict assignment: the assigned key reads the new
value, any other key is unaffected. -/
theorem lookupA_updateA {α : Type} (l : List (String × α)) (k k2 : String) (v : α) :
    lookupA (updateA l k v) k2 = if k2 = k then some v else lookupA l k2 := by
  induction l with
  | nil =>
    by_cases h : k2 = k
    · subst h; simp [updateA, lookupA]
    · have h2 : ¬k = k2 := fun hh => h hh.symm
      simp [updateA, lookupA, h, h2]
  | cons p rest ih =>
    obtain ⟨pk, pv⟩ := p
    by_cases hpk : pk = k
    · subst hpk
      by_cases h : k2 = pk
      · subst h; simp [updateA, lookupA]
      · have h2 : ¬pk = k2 := fun hh => h hh.symm
        simp [updateA, lookupA, h, h2]
    · by_cases h : pk = k2
      · subst h
        simp [updateA, lookupA, hpk]
      · simp only [updateA, if_neg hpk, lookupA, if_neg h, ih]

/-- On a DTM segment with at least three elements and an open message `r`
present in the result dict, the parser's dispatch overwrites that message's
`invoice_date` with the segment's element[2], whatever the qualifier is. -/
theorem stepSeg_dtm (st : PState) (r qual date : String) (rest : List String)
    (m : PMsg) (hr : st.msgRef = some r) (hm : lookupA st.data r = some m) :
    stepSeg st ("DTM" :: qual :: date :: rest) =
      Except.ok { st with
        data := updateA st.data r { m with invoice_date := some date } } := by
  unfold stepSeg
  simp [hr, hm]

/-- C6 (amended): the parser sets `invoice_date` from EVERY DTM segment with
at least three elements, regardless of the qualifier in element[1], so the
LAST DTM observed wins: appending one more DTM segment to any successfully
parsed prefix whose current message `r` is open overwrites that message's
`invoice_date` with the new DTM's element[2], whatever DTM segments the
prefix already contained. -/
theorem c6_amended_last_dtm_wins (pre : List (List String)) (st : PState)
    (r qual date : String) (rest : List String)
    (hp : foldElems {} pre = Except.ok st) (hr : st.msgRef = some r)
    (hmem : (lookupA st.data r).isSome = true) :
    ∃ st2, foldElems {} (pre ++ [("DTM" :: qual :: date :: rest)]) = Except.ok st2 ∧
      (lookupA st2.data r).map (fun m => m.invoice_date) = some (some date) := by
  obtain ⟨m, hm⟩ := Option.isSome_iff_exists.mp hmem
  rw [foldElems_append, hp]
  simp only [foldElems, bind, Except.bind, stepSeg_dtm st r qual date rest m hr hm]
  exact ⟨_, rfl, by simp [lookupA_updateA]⟩

/-- The parsed prefix of the C6 witness: a UNH and one DTM carrying the
invoice date. -/
def c6preSegs : List (List String) :=
  [["UNH", "M1"], ["DTM", "137", "20250115", "102"]]

/-- The parser state after the C6 witness prefix. -/
def c6prefixState : PState := (foldElems {} c6preSegs).toOption.getD {}

/-- Witness for `c6_amended_last_dtm_wins`: appending the due-date DTM
(qualifier 13) overwrites the invoice date already set by the qualifier-137
DTM. -/
theorem c6_amended_last_dtm_wins_witness :
    foldElems {} c6preSegs = Except.ok c6prefixState ∧
    c6prefixState.msgRef = some "M1" ∧
    (lookupA c6prefixState.data "M1").isSome = true ∧
    ∃ st2, foldElems {} (c6preSegs ++ ["DTM" :: "13" :: "20250301" :: ["102"]]) =
        Except.ok st2 ∧
      (lookupA st2.data "M1").map (fun m => m.invoice_date) = some (some "20250301") :=
  ⟨by decide, by decide, by decide,
   c6_amended_last_dtm_wins c6preSegs c6prefixState "M1" "13" "20250301" ["102"]
     (by decide) (by decide) (by decide)⟩

/-! ## Claim C9: determinism of generation with an injected interchange_ref -/

/-- C9 (counterexample): two runs over the identical invoice list with the
same injected interchange reference but different clock readings (the UNB
date field changes from 250110 to 250111) produce different byte streams:
`generate_una_unb_headers` embeds `datetime.now()` in the UNB segment even
when `interchange_ref` is injected. -/
theorem c9_counterexample_clock_in_unb :
    convert_amazon_csv_to_edifact c1config "20250110" "250110" "0900" [c1invoice] ≠
      convert_amazon_csv_to_edifact c1config "20250110" "250111" "0900" [c1invoice] := by
  decide

theorem str_append_assoc (a b c : String) : a ++ b ++ c = a ++ (b ++ c) := by
  cases a with | mk d1 =>
  cases b with | mk d2 =>
  cases c with | mk d3 =>
  exact congrArg String.mk (List.append_assoc d1 d2 d3)

/-- A message whose invoice succeeds carries its own `invoice_date`, so the
`datetime.now` fallback for a missing invoice date is never consulted. -/
theorem generate_invoice_segments_today_irrelevant (config : EDIFACTConfig)
    (today today2 : String) (inv : Invoice) (h : inv.invoice_date.isSome = true) :
    Amazon.generate_invoice_segments config today inv =
      Amazon.generate_invoice_segments config today2 inv := by
  obtain ⟨dte, hd⟩ := Option.isSome_iff_exists.mp h
  simp [Amazon.generate_invoice_segments, hd]

/-- `convertLoop` ignores the clock whenever every invoice has its own
invoice date. -/
theorem convertLoop_today_irrelevant (config : EDIFACTConfig)
    (today today2 : String) (invs : List Invoice)
    (h : ∀ inv ∈ invs, inv.invoice_date.isSome = true) :
    convertLoop config today invs = convertLoop config today2 invs := by
  induction invs with
  | nil => rfl
  | cons inv rest ih =>
    simp only [convertLoop]
    rw [generate_invoice_segments_today_irrelevant config today today2 inv
      (h inv (List.mem_cons_self inv rest))]
    rw [ih (fun i hi => h i (List.mem_cons_of_mem _ hi))]

/-- C9 (amended): generation is deterministic once the interchange reference
and the clock readings are both fixed; more precisely, for invoices that
carry their own invoice_date the clock enters only the UNA/UNB header block,
so two runs with identical input and the same injected `interchange_ref`
produce streams that are byte-identical after their headers (and hence
byte-identical whenever the two runs read the same clock strings). -/
theorem c9_amended_deterministic_modulo_header (config : EDIFACTConfig)
    (today today2 d t d2 t2 : String) (invoices : List Invoice) (s s2 : String)
    (hdates : ∀ inv ∈ invoices, inv.invoice_date.isSome = true)
    (h1 : convert_amazon_csv_to_edifact config today d t invoices = Except.ok s)
    (h2 : convert_amazon_csv_to_edifact config today2 d2 t2 invoices = Except.ok s2) :
    ∃ b, s = generate_una_unb_headers config d t ++ b ∧
      s2 = generate_una_unb_headers config d2 t2 ++ b := by
  unfold convert_amazon_csv_to_edifact at h1 h2
  split at h1
  · cases h1
  · split at h2
    · cases h2
    · rw [convertLoop_today_irrelevant config today2 today invoices hdates] at h2
      simp only [bind, Except.bind, pure, Except.pure] at h1 h2
      cases hc : convertLoop config today invoices with
      | error e => rw [hc] at h1; cases h1
      | ok segs =>
        rw [hc] at h1 h2
        simp only [Except.ok.injEq] at h1 h2
        subst h1; subst h2
        exact ⟨pyJoin "" segs ++ generate_unz_trailer config invoices.length,
          str_append_assoc _ _ _, str_append_assoc _ _ _⟩

/-- The stream of the first C9 witness run (clock 250110/0900). -/
def c9s1 : String :=
  (convert_amazon_csv_to_edifact c1config "20250110" "250110" "0900"
    [c1invoice]).toOption.getD ""

/-- The stream of the second C9 witness run (clock 250111/1005, same input
and interchange reference). -/
def c9s2 : String :=
  (convert_amazon_csv_to_edifact c1config "20250111" "250111" "1005"
    [c1invoice]).toOption.getD ""

set_option maxRecDepth 400000 in
/-- Witness for `c9_amended_deterministic_modulo_header`: the two C9 runs
agree on every byte after their UNA/UNB headers. -/
theorem c9_amended_deterministic_witness :
    (∀ inv ∈ [c1invoice], inv.invoice_date.isSome = true) ∧
    convert_amazon_csv_to_edifact c1config "20250110" "250110" "0900" [c1invoice] =
      Except.ok c9s1 ∧
    convert_amazon_csv_to_edifact c1config "20250111" "250111" "1005" [c1invoice] =
      Except.ok c9s2 ∧
    ∃ b, c9s1 = generate_una_unb_headers c1config "250110" "0900" ++ b ∧
      c9s2 = generate_una_unb_headers c1config "250111" "1005" ++ b :=
  ⟨by decide, by decide, by decide,
   c9_amended_deterministic_modulo_header c1config "20250110" "20250111" "250110"
     "0900" "250111" "1005" [c1invoice] c9s1 c9s2 (by decide) (by decide) (by decide)⟩

/-! ## Claim C5: parser tolerance of malformed segments -/

/-- C5 (counterexample): a stream whose LIN segment has no second element
(`LIN'` splits into the single element `["LIN"]`) makes `parse_edi` raise
`IndexError` at `elements[1]` instead of skipping the malformed segment. -/
theorem c5_counterexample_lin_raises :
    parse_edi "UNH+M1'LIN'" = Except.error "IndexError" := by
  decide

/-- Abstraction of the parser's line state used for the tolerance analysis:
`noLine` — no LIN has been dispatched yet; `validLine` — the current line
number has an entry in the current message's lines; `staleLine` — a later
UNH reopened a fresh message while a line number from an earlier message is
still current (the code never resets `current_line_number`). -/
inductive LineAbs
  | noLine
  | validLine
  | staleLine
deriving DecidableEq

/-- Abstract parser state: whether a message is open, plus the line state. -/
structure AbsState where
  hasMsg : Bool := false
  line : LineAbs := LineAbs.noLine
deriving DecidableEq

/-- Effect of a UNH on the line abstraction: a line from an earlier message
becomes stale, since the fresh message has no lines yet and
`current_line_number` is not reset. -/
def bumpLine : LineAbs → LineAbs
  | LineAbs.noLine => LineAbs.noLine
  | _ => LineAbs.staleLine

/-- One abstract step of the tolerance automaton: `none` whenever the
concrete parser could raise on this segment in a state of this shape. -/
def stepAbs (a : AbsState) (e : List String) : Option AbsState :=
  let tag := e.headD ""
  if tag = "UNH" then
    match e[1]? with
    | none => none
    | some _ => some { hasMsg := true, line := bumpLine a.line }
  else if tag = "LIN" then
    match e[1]? with
    | none => none
    | some _ =>
      if a.hasMsg then some { hasMsg := true, line := LineAbs.validLine } else none
  else if tag = "IMD" then
    match a.line with
    | LineAbs.staleLine => none
    | _ => some a
  else if tag = "QTY" then
    match a.line with
    | LineAbs.staleLine => none
    | _ => some a
  else if tag = "MOA" then
    match e[1]?, e[2]? with
    | some qual, some _ =>
      if qual = "203" then
        match a.line with
        | LineAbs.staleLine => none
        | _ => some a
      else if qual = "9" then
        if a.hasMsg then some a else none
      else some a
    | _, _ => some a
  else some a

/-- Whether the tolerance automaton accepts a whole segment list. -/
def safeSegs : AbsState → List (List String) → Bool
  | _, [] => true
  | a, e :: es =>
    match stepAbs a e with
    | none => false
    | some a2 => safeSegs a2 es

/-- The concretisation relation between an abstract state and the parser
state: `hasMsg` tracks whether a message reference is open and present in
the result dict, and the line abstraction tracks whether the current line
number has an entry under the current message. -/
def AbsRel (a : AbsState) (st : PState) : Prop :=
  a.hasMsg = st.msgRef.isSome ∧
  (∀ r, st.msgRef = some r → (lookupA st.data r).isSome = true) ∧
  (a.line = LineAbs.noLine → st.lineNum = none) ∧
  (a.line = LineAbs.validLine →
    ∃ n r m, st.lineNum = some n ∧ st.msgRef = some r ∧
      lookupA st.data r = some m ∧
      (lookupA m.lines ("line_" ++ n)).isSome = true)

/-- The relation is preserved by any parser step that rewrites the currently
open message with a record whose lines keep (at least) the old keys. -/
theorem absRel_update_msg (a : AbsState) (st : PState) (r : String) (m m2 : PMsg)
    (hmsgeq : a.hasMsg = st.msgRef.isSome)
    (hmsgmem : ∀ r0, st.msgRef = some r0 → (lookupA st.data r0).isSome = true)
    (hnoline : a.line = LineAbs.noLine → st.lineNum = none)
    (hvalid : a.line = LineAbs.validLine →
      ∃ n r0 m0, st.lineNum = some n ∧ st.msgRef = some r0 ∧
        lookupA st.data r0 = some m0 ∧
        (lookupA m0.lines ("line_" ++ n)).isSome = true)
    (hr : st.msgRef = some r) (hm : lookupA st.data r = some m)
    (hlines : ∀ k, (lookupA m.lines k).isSome = true →
      (lookupA m2.lines k).isSome = true) :
    AbsRel a { st with data := updateA st.data r m2 } := by
  refine ⟨hmsgeq, ?_, hnoline, ?_⟩
  · intro r0 hr0
    rw [hr] at hr0
    cases hr0
    simp [lookupA_updateA]
  · intro hv
    obtain ⟨n, r0, m0, hn, hr0, hm0, hline⟩ := hvalid hv
    rw [hr] at hr0
    cases hr0
    rw [hm] at hm0
    cases hm0
    refine ⟨n, r, m2, hn, hr, ?_, hlines _ hline⟩
    simp [lookupA_updateA]

/-- Reduction of `stepSeg` on a UNH segment with a reference element. -/
theorem stepSeg_unh_ok (st : PState) (e : List String) (ref : String)
    (htag : e.headD "" = "UNH") (he : e[1]? = some ref) :
    stepSeg st e = Except.ok { st with
      data := updateA st.data ref ⟨none, none, [], none⟩, msgRef := some ref } := by
  unfold stepSeg
  simp only [htag, he, String.reduceEq, reduceIte]

/-- Reduction of `stepSeg` on a DTM segment when no message is open. -/
theorem stepSeg_dtm_nomsg (st : PState) (e : List String)
    (htag : e.headD "" = "DTM") (hr : st.msgRef = none) :
    stepSeg st e = Except.ok st := by
  unfold stepSeg
  rcases he : e[2]? with _ | d <;> simp only [htag, hr, he, String.reduceEq, reduceIte]

/-- Reduction of `stepSeg` on a DTM segment with fewer than three elements. -/
theorem stepSeg_dtm_noelem (st : PState) (e : List String)
    (htag : e.headD "" = "DTM") (he : e[2]? = none) :
    stepSeg st e = Except.ok st := by
  unfold stepSeg
  rcases hr : st.msgRef with _ | r <;> simp only [htag, hr, he, String.reduceEq, reduceIte]

/-- Reduction of `stepSeg` on a DTM segment that sets the invoice date. -/
theorem stepSeg_dtm_set (st : PState) (e : List String) (r d : String) (m : PMsg)
    (htag : e.headD "" = "DTM") (he : e[2]? = some d)
    (hr : st.msgRef = some r) (hm : lookupA st.data r = some m) :
    stepSeg st e = Except.ok { st with
      data := updateA st.data r { m with invoice_date := some d } } := by
  unfold stepSeg
  simp only [htag, he, hr, hm, String.reduceEq, reduceIte]

/-- Reduction of `stepSeg` on a BGM segment when no message is open. -/
theorem stepSeg_bgm_nomsg (st : PState) (e : List String)
    (htag : e.headD "" = "BGM") (hr : st.msgRef = none) :
    stepSeg st e = Except.ok st := by
  unfold stepSeg
  rcases he : e[2]? with _ | num <;> simp only [htag, hr, he, String.reduceEq, reduceIte]

/-- Reduction of `stepSeg` on a BGM segment with fewer than three elements. -/
theorem stepSeg_bgm_noelem (st : PState) (e : List String)
    (htag : e.headD "" = "BGM") (he : e[2]? = none) :
    stepSeg st e = Except.ok st := by
  unfold stepSeg
  rcases hr : st.msgRef with _ | r <;> simp only [htag, hr, he, String.reduceEq, reduceIte]

/-- Reduction of `stepSeg` on a BGM segment that sets the invoice number. -/
theorem stepSeg_bgm_set (st : PState) (e : List String) (r num : String) (m : PMsg)
    (htag : e.headD "" = "BGM") (he : e[2]? = some num)
    (hr : st.msgRef = some r) (hm : lookupA st.data r = some m) :
    stepSeg st e = Except.ok { st with
      data := updateA st.data r { m with invoice_number := some num } } := by
  unfold stepSeg
  simp only [htag, he, hr, hm, String.reduceEq, reduceIte]

/-- Reduction of `stepSeg` on a LIN segment that opens a line. -/
theorem stepSeg_lin_ok (st : PState) (e : List String) (n r : String) (m : PMsg)
    (htag : e.headD "" = "LIN") (he : e[1]? = some n)
    (hr : st.msgRef = some r) (hm : lookupA st.data r = some m) :
    stepSeg st e = Except.ok { st with
      data := updateA st.data r
        { m with lines := updateA m.lines ("line_" ++ n) ⟨e[3]?, [], none, none⟩ },
      lineNum := some n } := by
  unfold stepSeg
  simp only [htag, he, hr, hm, String.reduceEq, reduceIte]

/-- Reduction of `stepSeg` on an IMD segment when no line is open. -/
theorem stepSeg_imd_skip (st : PState) (e : List String)
    (htag : e.headD "" = "IMD") (hn : st.lineNum = none) :
    stepSeg st e = Except.ok st := by
  unfold stepSeg
  simp only [htag, hn, String.reduceEq, reduceIte]

/-- Reduction of `stepSeg` on an IMD segment that appends to a description. -/
theorem stepSeg_imd_set (st : PState) (e : List String) (n r : String)
    (m : PMsg) (l : PLine)
    (htag : e.headD "" = "IMD") (hn : st.lineNum = some n)
    (hr : st.msgRef = some r) (hm : lookupA st.data r = some m)
    (hl : lookupA m.lines ("line_" ++ n) = some l) :
    stepSeg st e = Except.ok { st with
      data := updateA st.data r
        { m with lines := updateA m.lines ("line_" ++ n) { l with description := l.description ++ [pyStrip (if 4 < e.length then pyJoin " " (e.drop 4) else "")] } } } := by
  unfold stepSeg
  simp only [htag, hn, hr, hm, hl, String.reduceEq, reduceIte]

/-- Reduction of `stepSeg` on a QTY segment when no line is open. -/
theorem stepSeg_qty_skip (st : PState) (e : List String)
    (htag : e.headD "" = "QTY") (hn : st.lineNum = none) :
    stepSeg st e = Except.ok st := by
  unfold stepSeg
  simp only [htag, hn, String.reduceEq, reduceIte]

/-- Reduction of `stepSeg` on a QTY segment that sets a quantity. -/
theorem stepSeg_qty_set (st : PState) (e : List String) (n r : String)
    (m : PMsg) (l : PLine)
    (htag : e.headD "" = "QTY") (hn : st.lineNum = some n)
    (hr : st.msgRef = some r) (hm : lookupA st.data r = some m)
    (hl : lookupA m.lines ("line_" ++ n) = some l) :
    stepSeg st e = Except.ok { st with
      data := updateA st.data r
        { m with lines := updateA m.lines ("line_" ++ n) { l with quantity := e[2]? } } } := by
  unfold stepSeg
  simp only [htag, hn, hr, hm, hl, String.reduceEq, reduceIte]

/-- Reduction of `stepSeg` on a MOA segment with no qualifier element. -/
theorem stepSeg_moa_skip1 (st : PState) (e : List String)
    (htag : e.headD "" = "MOA") (he1 : e[1]? = none) :
    stepSeg st e = Except.ok st := by
  unfold stepSeg
  rcases he2 : e[2]? with _ | amt <;> simp only [htag, he1, he2, String.reduceEq, reduceIte]

/-- Reduction of `stepSeg` on a MOA segment with fewer than three elements. -/
theorem stepSeg_moa_skip2 (st : PState) (e : List String) (qual : String)
    (htag : e.headD "" = "MOA") (he1 : e[1]? = some qual) (he2 : e[2]? = none) :
    stepSeg st e = Except.ok st := by
  unfold stepSeg
  simp only [htag, he1, he2, String.reduceEq, reduceIte]

/-- Reduction of `stepSeg` on a MOA segment with a qualifier other than 203
and 9. -/
theorem stepSeg_moa_other (st : PState) (e : List String) (qual amt : String)
    (htag : e.headD "" = "MOA") (he1 : e[1]? = some qual) (he2 : e[2]? = some amt)
    (hq : ¬qual = "203") (hq9 : ¬qual = "9") :
    stepSeg st e = Except.ok st := by
  unfold stepSeg
  simp only [htag, he1, he2, hq, hq9, String.reduceEq, reduceIte]

/-- Reduction of `stepSeg` on a MOA+203 segment when no line is open. -/
theorem stepSeg_moa203_skip (st : PState) (e : List String) (amt : String)
    (htag : e.headD "" = "MOA") (he1 : e[1]? = some "203") (he2 : e[2]? = some amt)
    (hn : st.lineNum = none) :
    stepSeg st e = Except.ok st := by
  unfold stepSeg
  simp only [htag, he1, he2, hn, String.reduceEq, reduceIte]

/-- Reduction of `stepSeg` on a MOA+203 segment that sets a line amount. -/
theorem stepSeg_moa203_set (st : PState) (e : List String) (amt n r : String)
    (m : PMsg) (l : PLine)
    (htag : e.headD "" = "MOA") (he1 : e[1]? = some "203") (he2 : e[2]? = some amt)
    (hn : st.lineNum = some n) (hr : st.msgRef = some r)
    (hm : lookupA st.data r = some m)
    (hl : lookupA m.lines ("line_" ++ n) = some l) :
    stepSeg st e = Except.ok { st with
      data := updateA st.data r
        { m with lines := updateA m.lines ("line_" ++ n) { l with amount := some amt } } } := by
  unfold stepSeg
  simp only [htag, he1, he2, hn, hr, hm, hl, String.reduceEq, reduceIte]

/-- Reduction of `stepSeg` on a MOA+9 segment that sets the invoice total. -/
theorem stepSeg_moa9_set (st : PState) (e : List String) (amt r : String) (m : PMsg)
    (htag : e.headD "" = "MOA") (he1 : e[1]? = some "9") (he2 : e[2]? = some amt)
    (hr : st.msgRef = some r) (hm : lookupA st.data r = some m) :
    stepSeg st e = Except.ok { st with
      data := updateA st.data r { m with invoice_total := some amt } } := by
  unfold stepSeg
  simp only [htag, he1, he2, hr, hm, String.reduceEq, reduceIte]

/-- Reduction of `stepSeg` on any unhandled segment tag. -/
theorem stepSeg_skip (st : PState) (e : List String)
    (h1 : ¬e.headD "" = "UNH") (h2 : ¬e.headD "" = "DTM")
    (h3 : ¬e.headD "" = "BGM") (h4 : ¬e.headD "" = "LIN")
    (h5 : ¬e.headD "" = "IMD") (h6 : ¬e.headD "" = "QTY")
    (h7 : ¬e.headD "" = "MOA") :
    stepSeg st e = Except.ok st := by
  unfold stepSeg
  simp only [h1, h2, h3, h4, h5, h6, h7, String.reduceEq, reduceIte]

/-- Soundness of one abstract step: when the tolerance automaton accepts a
segment, the concrete parser step succeeds and the relation is preserved. -/
theorem stepAbs_sound (a a2 : AbsState) (st : PState) (e : List String)
    (hrel : AbsRel a st) (hstep : stepAbs a e = some a2) :
    ∃ st2, stepSeg st e = Except.ok st2 ∧ AbsRel a2 st2 := by
  obtain ⟨hmsgeq, hmsgmem, hnoline, hvalid⟩ := hrel
  unfold stepAbs at hstep
  by_cases h1 : e.headD "" = "UNH"
  · simp only [h1, String.reduceEq, reduceIte] at hstep
    cases he : e[1]? with
    | none => rw [he] at hstep; simp at hstep
    | some ref =>
      rw [he] at hstep
      simp only [Option.some.injEq] at hstep
      subst hstep
      rw [stepSeg_unh_ok st e ref h1 he]
      refine ⟨_, rfl, rfl, ?_, ?_, ?_⟩
      · intro r hr
        cases hr
        simp [lookupA_updateA]
      · intro hl
        cases hline : a.line
        · exact hnoline hline
        · rw [hline] at hl; simp [bumpLine] at hl
        · rw [hline] at hl; simp [bumpLine] at hl
      · intro hl
        cases hline : a.line <;> rw [hline] at hl <;> simp [bumpLine] at hl
  · by_cases h2 : e.headD "" = "DTM"
    · simp only [h2, String.reduceEq, reduceIte, Option.some.injEq] at hstep
      subst hstep
      cases hr : st.msgRef with
      | none =>
        rw [stepSeg_dtm_nomsg st e h2 hr]
        exact ⟨st, rfl, hmsgeq, hmsgmem, hnoline, hvalid⟩
      | some r =>
        cases he : e[2]? with
        | none =>
          rw [stepSeg_dtm_noelem st e h2 he]
          exact ⟨st, rfl, hmsgeq, hmsgmem, hnoline, hvalid⟩
        | some d =>
          obtain ⟨m, hm⟩ := Option.isSome_iff_exists.mp (hmsgmem r hr)
          rw [stepSeg_dtm_set st e r d m h2 he hr hm]
          exact ⟨_, rfl, absRel_update_msg a st r m _ hmsgeq hmsgmem hnoline hvalid
            hr hm (fun k hk => hk)⟩
    · by_cases h3 : e.headD "" = "BGM"
      · simp only [h3, String.reduceEq, reduceIte, Option.some.injEq] at hstep
        subst hstep
        cases hr : st.msgRef with
        | none =>
          rw [stepSeg_bgm_nomsg st e h3 hr]
          exact ⟨st, rfl, hmsgeq, hmsgmem, hnoline, hvalid⟩
        | some r =>
          cases he : e[2]? with
          | none =>
            rw [stepSeg_bgm_noelem st e h3 he]
            exact ⟨st, rfl, hmsgeq, hmsgmem, hnoline, hvalid⟩
          | some num =>
            obtain ⟨m, hm⟩ := Option.isSome_iff_exists.mp (hmsgmem r hr)
            rw [stepSeg_bgm_set st e r num m h3 he hr hm]
            exact ⟨_, rfl, absRel_update_msg a st r m _ hmsgeq hmsgmem hnoline hvalid
              hr hm (fun k hk => hk)⟩
      · by_cases h4 : e.headD "" = "LIN"
        · simp only [h4, String.reduceEq, reduceIte] at hstep
          cases he : e[1]? with
          | none => rw [he] at hstep; simp at hstep
          | some n =>
            rw [he] at hstep
            cases hmsg : a.hasMsg with
            | false => rw [hmsg] at hstep; simp at hstep
            | true =>
              rw [hmsg] at hstep
              simp only [reduceIte, Option.some.injEq] at hstep
              subst hstep
              rw [hmsg] at hmsgeq
              cases hr : st.msgRef with
              | none => rw [hr] at hmsgeq; simp at hmsgeq
              | some r =>
                obtain ⟨m, hm⟩ := Option.isSome_iff_exists.mp (hmsgmem r hr)
                rw [stepSeg_lin_ok st e n r m h4 he hr hm]
                refine ⟨_, rfl, ?_, ?_, ?_, ?_⟩
                · rw [hr]; rfl
                · intro r0 hr0
                  rw [hr] at hr0
                  cases hr0
                  simp [lookupA_updateA]
                · intro hl
                  exact absurd hl (by decide)
                · intro hl
                  refine ⟨n, r,
                    { m with lines := updateA m.lines ("line_" ++ n) ⟨e[3]?, [], none, none⟩ },
                    rfl, hr, ?_, ?_⟩
                  · simp [lookupA_updateA]
                  · simp [lookupA_updateA]
        · by_cases h5 : e.headD "" = "IMD"
          · simp only [h5, String.reduceEq, reduceIte] at hstep
            cases hline : a.line with
            | staleLine => rw [hline] at hstep; simp at hstep
            | noLine =>
              rw [hline] at hstep
              simp only [Option.some.injEq] at hstep
              subst hstep
              rw [stepSeg_imd_skip st e h5 (hnoline hline)]
              exact ⟨st, rfl, hmsgeq, hmsgmem, hnoline, hvalid⟩
            | validLine =>
              rw [hline] at hstep
              simp only [Option.some.injEq] at hstep
              subst hstep
              obtain ⟨n, r, m, hn, hr, hm, hlk⟩ := hvalid hline
              obtain ⟨l, hl⟩ := Option.isSome_iff_exists.mp hlk
              rw [stepSeg_imd_set st e n r m l h5 hn hr hm hl]
              refine ⟨_, rfl, ?_⟩
              refine absRel_update_msg a st r m _ hmsgeq hmsgmem hnoline hvalid hr hm ?_
              intro k hk
              simp only [lookupA_updateA]
              by_cases hkn : k = "line_" ++ n
              · simp [hkn]
              · simp only [if_neg hkn]
                exact hk
          · by_cases h6 : e.headD "" = "QTY"
            · simp only [h6, String.reduceEq, reduceIte] at hstep
              cases hline : a.line with
              | staleLine => rw [hline] at hstep; simp at hstep
              | noLine =>
                rw [hline] at hstep
                simp only [Option.some.injEq] at hstep
                subst hstep
                rw [stepSeg_qty_skip st e h6 (hnoline hline)]
                exact ⟨st, rfl, hmsgeq, hmsgmem, hnoline, hvalid⟩
              | validLine =>
                rw [hline] at hstep
                simp only [Option.some.injEq] at hstep
                subst hstep
                obtain ⟨n, r, m, hn, hr, hm, hlk⟩ := hvalid hline
                obtain ⟨l, hl⟩ := Option.isSome_iff_exists.mp hlk
                rw [stepSeg_qty_set st e n r m l h6 hn hr hm hl]
                refine ⟨_, rfl, ?_⟩
                refine absRel_update_msg a st r m _ hmsgeq hmsgmem hnoline hvalid hr hm ?_
                intro k hk
                simp only [lookupA_updateA]
                by_cases hkn : k = "line_" ++ n
                · simp [hkn]
                · simp only [if_neg hkn]
                  exact hk
            · by_cases h7 : e.headD "" = "MOA"
              · simp only [h7, String.reduceEq, reduceIte] at hstep
                cases he1 : e[1]? with
                | none =>
                  rw [he1] at hstep
                  simp only [Option.some.injEq] at hstep
                  subst hstep
                  rw [stepSeg_moa_skip1 st e h7 he1]
                  exact ⟨st, rfl, hmsgeq, hmsgmem, hnoline, hvalid⟩
                | some qual =>
                  rw [he1] at hstep
                  cases he2 : e[2]? with
                  | none =>
                    rw [he2] at hstep
                    simp only [Option.some.injEq] at hstep
                    subst hstep
                    rw [stepSeg_moa_skip2 st e qual h7 he1 he2]
                    exact ⟨st, rfl, hmsgeq, hmsgmem, hnoline, hvalid⟩
                  | some amt =>
                    rw [he2] at hstep
                    by_cases hq : qual = "203"
                    · subst hq
                      simp only [String.reduceEq, reduceIte] at hstep
                      cases hline : a.line with
                      | staleLine => rw [hline] at hstep; simp at hstep
                      | noLine =>
                        rw [hline] at hstep
                        simp only [Option.some.injEq] at hstep
                        subst hstep
                        rw [stepSeg_moa203_skip st e amt h7 he1 he2 (hnoline hline)]
                        exact ⟨st, rfl, hmsgeq, hmsgmem, hnoline, hvalid⟩
                      | validLine =>
                        rw [hline] at hstep
                        simp only [Option.some.injEq] at hstep
                        subst hstep
                        obtain ⟨n, r, m, hn, hr, hm, hlk⟩ := hvalid hline
                        obtain ⟨l, hl⟩ := Option.isSome_iff_exists.mp hlk
                        rw [stepSeg_moa203_set st e amt n r m l h7 he1 he2 hn hr hm hl]
                        refine ⟨_, rfl, ?_⟩
                        refine absRel_update_msg a st r m _ hmsgeq hmsgmem hnoline
                          hvalid hr hm ?_
                        intro k hk
                        simp only [lookupA_updateA]
                        by_cases hkn : k = "line_" ++ n
                        · simp [hkn]
                        · simp only [if_neg hkn]
                          exact hk
                    · by_cases hq9 : qual = "9"
                      · subst hq9
                        simp only [String.reduceEq, reduceIte] at hstep
                        cases hmsg : a.hasMsg with
                        | false => rw [hmsg] at hstep; simp at hstep
                        | true =>
                          rw [hmsg] at hstep
                          simp only [reduceIte, Option.some.injEq] at hstep
                          subst hstep
                          have hsome : st.msgRef.isSome = true := by
                            rw [← hmsgeq, hmsg]
                          cases hr : st.msgRef with
                          | none => rw [hr] at hsome; simp at hsome
                          | some r =>
                            obtain ⟨m, hm⟩ :=
                              Option.isSome_iff_exists.mp (hmsgmem r hr)
                            rw [stepSeg_moa9_set st e amt r m h7 he1 he2 hr hm]
                            exact ⟨_, rfl, absRel_update_msg a st r m _ hmsgeq
                              hmsgmem hnoline hvalid hr hm (fun k hk => hk)⟩
                      · simp only [hq, hq9, String.reduceEq, reduceIte,
                          Option.some.injEq] at hstep
                        subst hstep
                        rw [stepSeg_moa_other st e qual amt h7 he1 he2 hq hq9]
                        exact ⟨st, rfl, hmsgeq, hmsgmem, hnoline, hvalid⟩
              · simp only [h1, h2, h3, h4, h5, h6, h7, String.reduceEq, reduceIte,
                  Option.some.injEq] at hstep
                subst hstep
                rw [stepSeg_skip st e h1 h2 h3 h4 h5 h6 h7]
                exact ⟨st, rfl, hmsgeq, hmsgmem, hnoline, hvalid⟩

/-- When the tolerance automaton accepts a segment list from a related state,
the whole parser fold succeeds. -/
theorem foldElems_sound (es : List (List String)) (a : AbsState) (st : PState)
    (hrel : AbsRel a st) (hsafe : safeSegs a es = true) :
    ∃ st2, foldElems st es = Except.ok st2 := by
  induction es generalizing a st with
  | nil => exact ⟨st, rfl⟩
  | cons e es ih =>
    unfold safeSegs at hsafe
    cases ha : stepAbs a e with
    | none => rw [ha] at hsafe; cases hsafe
    | some a3 =>
      rw [ha] at hsafe
      obtain ⟨st2, hst2, hrel2⟩ := stepAbs_sound a a3 st e hrel ha
      obtain ⟨st3, hst3⟩ := ih a3 st2 hrel2 hsafe
      refine ⟨st3, ?_⟩
      simp only [foldElems, bind, Except.bind, hst2, hst3]

/-- The initial abstract state is related to the initial parser state. -/
theorem absRel_init : AbsRel {} {} := by
  refine ⟨rfl, ?_, fun _ => rfl, ?_⟩
  · intro r hr; cases hr
  · intro hl; cases hl

/-- C5 (amended): malformed DTM, BGM, IMD, QTY and MOA segments (too few
elements for their tag) are skipped and parsing continues, and in particular
`UNH+491150'LIN+1+'` parses without raising into a line with
`item_number = none`; but the parse is raise-free only on streams accepted by
the tolerance automaton `safeSegs`: a UNH or LIN segment needs its second
element, a LIN or MOA+9 needs an open message, and after a UNH reopens a
message a stale line number must not be used by IMD/QTY/MOA+203 before the
next LIN (outside these conditions the parser raises IndexError/KeyError,
see the counterexample). -/
theorem c5_amended_parser_tolerance :
    (∀ s : String, safeSegs {} ((pySplitOnChar '\'' s).map splitElems) = true →
      ∃ d, parse_edi s = Except.ok d) ∧
    parse_edi "UNH+491150'LIN+1+'" =
      Except.ok [("491150", { lines := [("line_1", { item_number := none })] })] := by
  constructor
  · intro s hs
    obtain ⟨st2, h⟩ := foldElems_sound _ {} {} absRel_init hs
    exact ⟨finalize st2, by simp [parse_edi, h, Except.map]⟩
  · decide

/-- Witness for `c5_amended_parser_tolerance` on a stream exercising every
tolerated short segment (DTM, BGM, QTY, IMD and MOA with too few elements). -/
theorem c5_amended_parser_tolerance_witness :
    safeSegs {}
      ((pySplitOnChar '\''
        "UNH+M9'DTM'BGM'LIN+1+X'QTY'IMD'MOA'MOA+203'UNT+9+M9'").map splitElems) =
      true ∧
    ∃ d, parse_edi "UNH+M9'DTM'BGM'LIN+1+X'QTY'IMD'MOA'MOA+203'UNT+9+M9'" =
      Except.ok d :=
  ⟨by decide,
   c5_amended_parser_tolerance.1
     "UNH+M9'DTM'BGM'LIN+1+X'QTY'IMD'MOA'MOA+203'UNT+9+M9'" (by decide)⟩
